import Mathlib

/-!
# company-api: the employee handlers of `src/server.js`

A shallow embedding of the six Express route handlers of `src/server.js` and of
the SQL statements they send to the connection pool.

* JavaScript values are the inductive type `JsVal`; `truthy` is the language's
  boolean coercion (the `!x` of the validation guard is `!truthy x`).
* `pool.query(text, params)` is a parameter of every handler: a function from a
  statement and a storage state to a result (or a thrown error) and a new
  storage state.  `await` is sequential composition.
* A handler returns the response it sends, the storage state it leaves, and the
  list of statements it executed.
* `pgQuery` evaluates the statements written in the source on a table of
  employees; the schema, which the repository does not contain, is modelled
  from the specification.
-/

set_option autoImplicit false

namespace CompanyApi

/-! ## JavaScript values -/

/-- JavaScript values as they occur in a parsed JSON body, in `req.params` and
in result rows.  Numbers are abstracted to the integers together with `nan`
(the two zeros of the language are both `num 0`); the handlers only ever test a
number for truthiness. -/
inductive JsVal where
  | undefined : JsVal
  | null : JsVal
  | bool (b : Bool) : JsVal
  | num (n : Int) : JsVal
  | nan : JsVal
  | str (s : String) : JsVal
  | arr (items : List JsVal) : JsVal
  | obj (fields : List (String × JsVal)) : JsVal

/-- The boolean coercion of JavaScript: `undefined`, `null`, `false`, `0`,
`NaN` and `""` are falsy, every other value (all objects and arrays, all other
numbers and strings) is truthy. -/
def truthy : JsVal → Bool
  | .undefined => false
  | .null => false
  | .bool b => b
  | .num n => n != 0
  | .nan => false
  | .str s => s != ""
  | .arr _ => true
  | .obj _ => true

/-- The parsed JSON body of a request (`req.body` after `express.json()`): an
object, given by its own properties.  A JSON array has none of the properties
the handlers read and behaves as the empty list. -/
abbrev Body := List (String × JsVal)

/-- Property read `o.k` as used by the destructuring
`const { first_name, ... } = req.body`: the value of the property, `undefined`
when the object has no such property. -/
def getProp (o : Body) (k : String) : JsVal :=
  match o.lookup k with
  | some v => v
  | none => JsVal.undefined

/-- Element read `rows[0]`: the first element, `undefined` on an empty array. -/
def firstRow (rows : List JsVal) : JsVal :=
  match rows with
  | [] => JsVal.undefined
  | r :: _ => r

/-! ## Statements, results, responses -/

/-- The six statement texts passed to `pool.query` in `src/server.js`. -/
inductive Sql where
  /-- Text `SELECT * FROM Employees` -/
  | selectAll
  /-- Text `SELECT * FROM Employees WHERE id = $1` -/
  | selectById
  /-- Text `INSERT INTO Employees (first_name, last_name, position, department_id,
  car_id) VALUES ($1, $2, $3, $4, $5) RETURNING *` -/
  | insertEmployee
  /-- Text `UPDATE Employees SET first_name = $1, last_name = $2, position = $3,
  department_id = $4, car_id = $5 WHERE id = $6 RETURNING *` -/
  | updateEmployee
  /-- Text `DELETE FROM Employees WHERE id = $1` -/
  | deleteById
  /-- The placeholder text `SELECT ... WHERE s.title = $1` -/
  | selectBySeries
  deriving DecidableEq, Repr

/-- One call `pool.query(text, params)`. -/
structure Stmt where
  text : Sql
  params : List JsVal

/-- What the driver resolves a query to: the result rows and the number of rows
the statement affected. -/
structure QueryResult where
  rows : List JsVal
  rowCount : Nat

/-- An error thrown by `pool.query`. -/
inductive DbError where
  | invalidInput
  | uniqueViolation
  | badStatement
  | other (message : String)

/-- The connection pool: executing a statement on a storage state either
resolves to a result or throws, and leaves a storage state. -/
abbrev Pool (σ : Type) := Stmt → σ → Except DbError QueryResult × σ

/-- What a handler puts in the response after `res.status(n)`: `.json(v)` or
the empty `.send()`. -/
inductive ResBody where
  | json (v : JsVal) : ResBody
  | empty : ResBody

/-- An HTTP response: status code and body. -/
structure Response where
  status : Nat
  body : ResBody

/-- What one run of a handler does: the response sent, the storage state left
behind, and the statements executed against the pool, in order. -/
structure Outcome (σ : Type) where
  response : Response
  db : σ
  issued : List Stmt

/-- Response `res.status(500).json({ error: 'Internal Server Error' })` -/
def internalServerError : Response :=
  ⟨500, ResBody.json (JsVal.obj [("error", JsVal.str "Internal Server Error")])⟩

/-- Response `res.status(404).json({ error: 'Employee not found' })` -/
def employeeNotFound : Response :=
  ⟨404, ResBody.json (JsVal.obj [("error", JsVal.str "Employee not found")])⟩

/-- Response `res.status(400).json({ error: 'Missing required fields' })` -/
def missingRequiredFields : Response :=
  ⟨400, ResBody.json (JsVal.obj [("error", JsVal.str "Missing required fields")])⟩

/-- Response `res.status(404).json({ message: 'No employees found for this series' })` -/
def noEmployeesForSeries : Response :=
  ⟨404, ResBody.json (JsVal.obj [("message", JsVal.str "No employees found for this series")])⟩

/-! ## The route handlers -/

section Handlers

variable {σ : Type}

/-- Handler `app.get('/employees/:id', ...)`, lines 38-52. -/
def getEmployeeById (pool : Pool σ) (id : String) (db : σ) : Outcome σ :=
  let q : Stmt := ⟨Sql.selectById, [JsVal.str id]⟩
  match pool q db with
  | (Except.ok r, db1) =>
    if r.rows.length = 0 then ⟨employeeNotFound, db1, [q]⟩
    else ⟨⟨200, ResBody.json (firstRow r.rows)⟩, db1, [q]⟩
  | (Except.error _, db1) => ⟨internalServerError, db1, [q]⟩

/-- Handler `app.post('/employees', ...)`, lines 55-77. -/
def postEmployee (pool : Pool σ) (body : Body) (db : σ) : Outcome σ :=
  let first_name := getProp body "first_name"
  let last_name := getProp body "last_name"
  let position := getProp body "position"
  let department_id := getProp body "department_id"
  let car_id := getProp body "car_id"
  if !truthy first_name || !truthy last_name || !truthy position then
    ⟨missingRequiredFields, db, []⟩
  else
    let q : Stmt := ⟨Sql.insertEmployee, [first_name, last_name, position, department_id, car_id]⟩
    match pool q db with
    | (Except.ok r, db1) => ⟨⟨201, ResBody.json (firstRow r.rows)⟩, db1, [q]⟩
    | (Except.error _, db1) => ⟨internalServerError, db1, [q]⟩

/-- Handler `app.delete('/employees/:id', ...)`, lines 105-119. -/
def deleteEmployee (pool : Pool σ) (id : String) (db : σ) : Outcome σ :=
  let q : Stmt := ⟨Sql.deleteById, [JsVal.str id]⟩
  match pool q db with
  | (Except.ok r, db1) =>
    if r.rowCount = 0 then ⟨employeeNotFound, db1, [q]⟩
    else ⟨⟨204, ResBody.empty⟩, db1, [q]⟩
  | (Except.error _, db1) => ⟨internalServerError, db1, [q]⟩

/-- Handler `app.get('/employees/by-series/:title', ...)`, lines 124-141. -/
def getEmployeesBySeries (pool : Pool σ) (title : String) (db : σ) : Outcome σ :=
  let q : Stmt := ⟨Sql.selectBySeries, [JsVal.str title]⟩
  match pool q db with
  | (Except.ok r, db1) =>
    if r.rows.length = 0 then ⟨noEmployeesForSeries, db1, [q]⟩
    else ⟨⟨200, ResBody.json (JsVal.arr r.rows)⟩, db1, [q]⟩
  | (Except.error _, db1) => ⟨internalServerError, db1, [q]⟩

/-- The same `GET /employees/:id` sent `k + 1` times in a row, nothing in
between: the outcome of the last of them. -/
def getRepeatedly (pool : Pool σ) (id : String) : Nat → σ → Outcome σ
  | 0, db => getEmployeeById pool id db
  | k + 1, db => getRepeatedly pool id k (getEmployeeById pool id db).db

end Handlers

/-! ## The storage behind the pool -/

/-- One row of the `Employees` table. -/
structure Employee where
  id : Int
  first_name : JsVal
  last_name : JsVal
  position : JsVal
  department_id : JsVal
  car_id : JsVal

/-- The row as the driver hands it to the handler: one object, a property per
column. -/
def Employee.toRow (e : Employee) : JsVal :=
  JsVal.obj [("id", JsVal.num e.id), ("first_name", e.first_name), ("last_name", e.last_name),
    ("position", e.position), ("department_id", e.department_id), ("car_id", e.car_id)]

/-- Modelled from the spec: the storage state, which the repository does not
define ("schema owned externally").  It is the `Employees` table and the
generator of the "server-generated numeric identifier": `lastId` is the last
identifier handed out. -/
structure Db where
  employees : List Employee
  lastId : Int

/-- Modelled from the spec: the parts of the externally owned schema that the
statements depend on and the repository does not fix.  `parseId` is the
conversion of the text bound to `$1` / `$6` into the numeric type of the `id`
column (`none`: the text is not accepted, the statement throws).  `series` is
the evaluation of the placeholder statement `SELECT ... WHERE s.title = $1`,
whose text the source leaves unfinished. -/
structure Schema where
  parseId : String → Option Int
  series : String → List Employee → Except DbError (List JsVal)

/-- Modelled from the spec: how a bound parameter is stored.  An omitted field
(`undefined`) is "written as NULL"; every other value is kept as it is. -/
def bindParam : JsVal → JsVal
  | JsVal.undefined => JsVal.null
  | v => v

/-- The `SET` clause of the `UPDATE` statement applied to one row: all five
columns are assigned, `id` is not. -/
def Employee.assign (e : Employee) (p1 p2 p3 p4 p5 : JsVal) : Employee :=
  ⟨e.id, bindParam p1, bindParam p2, bindParam p3, bindParam p4, bindParam p5⟩

/-- Modelled from the spec: the six statements of `src/server.js` evaluated on
the storage state.  `INSERT` draws the next identifier from the generator and
is rejected when a row already has it ("id is unique", primary key); the
identifier stays consumed.  `WHERE id = $n` selects the rows whose `id` is the
converted parameter.  No column constraint other than the key is modelled
(the spec has omitted fields "written as NULL").  A statement with a parameter
list of another shape than the handlers build throws. -/
def pgQuery (S : Schema) : Pool Db := fun q db =>
  match q.text, q.params with
  | Sql.selectAll, [] =>
    (Except.ok ⟨db.employees.map Employee.toRow, db.employees.length⟩, db)
  | Sql.selectById, [JsVal.str id] =>
    match S.parseId id with
    | none => (Except.error DbError.invalidInput, db)
    | some n =>
      let hit := db.employees.filter (fun e => e.id = n)
      (Except.ok ⟨hit.map Employee.toRow, hit.length⟩, db)
  | Sql.insertEmployee, [p1, p2, p3, p4, p5] =>
    let n := db.lastId + 1
    if db.employees.any (fun e => e.id = n) then
      (Except.error DbError.uniqueViolation, ⟨db.employees, n⟩)
    else
      let e : Employee := ⟨n, bindParam p1, bindParam p2, bindParam p3, bindParam p4, bindParam p5⟩
      (Except.ok ⟨[e.toRow], 1⟩, ⟨db.employees ++ [e], n⟩)
  | Sql.updateEmployee, [p1, p2, p3, p4, p5, JsVal.str id] =>
    match S.parseId id with
    | none => (Except.error DbError.invalidInput, db)
    | some n =>
      let hit := (db.employees.filter (fun e => e.id = n)).map
        (fun e => e.assign p1 p2 p3 p4 p5)
      (Except.ok ⟨hit.map Employee.toRow, hit.length⟩,
        ⟨db.employees.map (fun e => if e.id = n then e.assign p1 p2 p3 p4 p5 else e),
          db.lastId⟩)
  | Sql.deleteById, [JsVal.str id] =>
    match S.parseId id with
    | none => (Except.error DbError.invalidInput, db)
    | some n =>
      (Except.ok ⟨[], (db.employees.filter (fun e => e.id = n)).length⟩,
        ⟨db.employees.filter (fun e => ¬ e.id = n), db.lastId⟩)
  | Sql.selectBySeries, [JsVal.str title] =>
    match S.series title db.employees with
    | Except.ok rows => (Except.ok ⟨rows, rows.length⟩, db)
    | Except.error err => (Except.error err, db)
  | _, _ => (Except.error DbError.badStatement, db)

/-! ## Concrete instances used to exercise the definitions -/

/-- Value of a string of decimal digits, most significant first. -/
def digitsValue : List Char → Nat → Option Nat
  | [], acc => some acc
  | c :: cs, acc =>
    if 48 ≤ c.toNat ∧ c.toNat ≤ 57 then digitsValue cs (acc * 10 + (c.toNat - 48)) else none

/-- A conversion that accepts exactly the non-empty strings of decimal digits. -/
def decimalId (s : String) : Option Int :=
  match s.data with
  | [] => none
  | cs => (digitsValue cs 0).map Int.ofNat

/-- A schema instance: decimal identifiers, and the placeholder statement
rejected as the syntax error its literal text is. -/
def demoSchema : Schema :=
  ⟨decimalId, fun _ _ => Except.error DbError.badStatement⟩

/-- A pool that resolves every statement to the same rows and leaves the
storage state alone. -/
def constPool (rows : List JsVal) : Pool Unit :=
  fun _ db => (Except.ok ⟨rows, rows.length⟩, db)

/-- A pool whose every call throws. -/
def downPool : Pool Unit :=
  fun _ db => (Except.error (DbError.other "connection refused"), db)

/-- A table with the single employee 1. -/
def demoDb : Db :=
  ⟨[⟨1, JsVal.str "Ann", JsVal.str "Lee", JsVal.str "Engineer", JsVal.num 7, JsVal.num 3⟩], 1⟩

theorem getProp_of_lookup_none (body : Body) (k : String) (h : body.lookup k = none) :
    getProp body k = JsVal.undefined := by
  simp [getProp, h]

theorem postEmployee_of_falsy {σ : Type} (pool : Pool σ) (body : Body) (db : σ)
    (h : truthy (getProp body "first_name") = false ∨ truthy (getProp body "last_name") = false ∨
      truthy (getProp body "position") = false) :
    postEmployee pool body db = ⟨missingRequiredFields, db, []⟩ := by
  have hc : (!truthy (getProp body "first_name") || !truthy (getProp body "last_name") ||
      !truthy (getProp body "position")) = true := by
    rcases h with h | h | h <;> simp [h]
  simp only [postEmployee, hc, if_true]

/-- C1: a creation body that lacks `first_name`, `last_name` or `position` is
answered 400 `{error: "Missing required fields"}`; no statement is executed and
the storage state is the one before the request. -/
theorem postEmployee_missing_required {σ : Type} (pool : Pool σ) (body : Body) (db : σ)
    (h : body.lookup "first_name" = none ∨ body.lookup "last_name" = none ∨
      body.lookup "position" = none) :
    (postEmployee pool body db).response =
        ⟨400, ResBody.json (JsVal.obj [("error", JsVal.str "Missing required fields")])⟩ ∧
      (postEmployee pool body db).issued = [] ∧
      (postEmployee pool body db).db = db := by
  have hf : truthy (getProp body "first_name") = false ∨
      truthy (getProp body "last_name") = false ∨ truthy (getProp body "position") = false := by
    rcases h with h | h | h
    · exact Or.inl (by rw [getProp_of_lookup_none body _ h]; rfl)
    · exact Or.inr (Or.inl (by rw [getProp_of_lookup_none body _ h]; rfl))
    · exact Or.inr (Or.inr (by rw [getProp_of_lookup_none body _ h]; rfl))
  rw [postEmployee_of_falsy pool body db hf]
  exact ⟨rfl, rfl, rfl⟩

/-- Witness for C1: a body without `last_name`, on the table with employee 1. -/
theorem postEmployee_missing_required_witness :
    (([("first_name", JsVal.str "Ann"), ("position", JsVal.str "Engineer")] : Body).lookup
        "last_name" = none) ∧
      (postEmployee (pgQuery demoSchema)
          [("first_name", JsVal.str "Ann"), ("position", JsVal.str "Engineer")] demoDb).response =
        ⟨400, ResBody.json (JsVal.obj [("error", JsVal.str "Missing required fields")])⟩ ∧
      (postEmployee (pgQuery demoSchema)
          [("first_name", JsVal.str "Ann"), ("position", JsVal.str "Engineer")] demoDb).issued = [] ∧
      (postEmployee (pgQuery demoSchema)
          [("first_name", JsVal.str "Ann"), ("position", JsVal.str "Engineer")] demoDb).db = demoDb :=
  ⟨rfl, postEmployee_missing_required (pgQuery demoSchema) _ demoDb (Or.inr (Or.inl rfl))⟩


/-! ### Each handler on a resolved and on a rejected query -/

theorem getEmployeeById_ok {σ : Type} {pool : Pool σ} {id : String} {db db1 : σ} {r : QueryResult}
    (h : pool ⟨Sql.selectById, [JsVal.str id]⟩ db = (Except.ok r, db1)) :
    getEmployeeById pool id db =
      if r.rows.length = 0 then ⟨employeeNotFound, db1, [⟨Sql.selectById, [JsVal.str id]⟩]⟩
      else ⟨⟨200, ResBody.json (firstRow r.rows)⟩, db1, [⟨Sql.selectById, [JsVal.str id]⟩]⟩ := by
  simp only [getEmployeeById, h]

theorem getEmployeeById_error {σ : Type} {pool : Pool σ} {id : String} {db db1 : σ} {e : DbError}
    (h : pool ⟨Sql.selectById, [JsVal.str id]⟩ db = (Except.error e, db1)) :
    getEmployeeById pool id db =
      ⟨internalServerError, db1, [⟨Sql.selectById, [JsVal.str id]⟩]⟩ := by
  simp only [getEmployeeById, h]

theorem deleteEmployee_ok {σ : Type} {pool : Pool σ} {id : String} {db db1 : σ} {r : QueryResult}
    (h : pool ⟨Sql.deleteById, [JsVal.str id]⟩ db = (Except.ok r, db1)) :
    deleteEmployee pool id db =
      if r.rowCount = 0 then ⟨employeeNotFound, db1, [⟨Sql.deleteById, [JsVal.str id]⟩]⟩
      else ⟨⟨204, ResBody.empty⟩, db1, [⟨Sql.deleteById, [JsVal.str id]⟩]⟩ := by
  simp only [deleteEmployee, h]

theorem getEmployeesBySeries_ok {σ : Type} {pool : Pool σ} {title : String} {db db1 : σ}
    {r : QueryResult}
    (h : pool ⟨Sql.selectBySeries, [JsVal.str title]⟩ db = (Except.ok r, db1)) :
    getEmployeesBySeries pool title db =
      if r.rows.length = 0 then
        ⟨noEmployeesForSeries, db1, [⟨Sql.selectBySeries, [JsVal.str title]⟩]⟩
      else ⟨⟨200, ResBody.json (JsVal.arr r.rows)⟩, db1,
        [⟨Sql.selectBySeries, [JsVal.str title]⟩]⟩ := by
  simp only [getEmployeesBySeries, h]

theorem getEmployeesBySeries_error {σ : Type} {pool : Pool σ} {title : String} {db db1 : σ}
    {e : DbError}
    (h : pool ⟨Sql.selectBySeries, [JsVal.str title]⟩ db = (Except.error e, db1)) :
    getEmployeesBySeries pool title db =
      ⟨internalServerError, db1, [⟨Sql.selectBySeries, [JsVal.str title]⟩]⟩ := by
  simp only [getEmployeesBySeries, h]

/-- C8: the series search executes its statement with the path title as the
only parameter; when the statement resolves, a non-empty result set is answered
200 with the array of rows and an empty one 404 with
`{message: "No employees found for this series"}` (key `message`). -/
theorem getEmployeesBySeries_answers {σ : Type} (pool : Pool σ) (title : String) (db : σ) :
    (getEmployeesBySeries pool title db).issued = [⟨Sql.selectBySeries, [JsVal.str title]⟩] ∧
      ∀ (r : QueryResult) (db1 : σ),
        pool ⟨Sql.selectBySeries, [JsVal.str title]⟩ db = (Except.ok r, db1) →
        (r.rows ≠ [] → (getEmployeesBySeries pool title db).response =
          ⟨200, ResBody.json (JsVal.arr r.rows)⟩) ∧
        (r.rows = [] → (getEmployeesBySeries pool title db).response =
          ⟨404, ResBody.json
            (JsVal.obj [("message", JsVal.str "No employees found for this series")])⟩) := by
  constructor
  · rcases h : pool ⟨Sql.selectBySeries, [JsVal.str title]⟩ db with ⟨e | r, db1⟩
    · simp [getEmployeesBySeries_error h]
    · simp only [getEmployeesBySeries_ok h]
      by_cases hr : r.rows.length = 0 <;> simp [hr]
  · intro r db1 h
    simp only [getEmployeesBySeries_ok h]
    constructor
    · intro hne
      have : ¬ r.rows.length = 0 := fun h0 => hne (List.length_eq_zero.1 h0)
      simp [this]
    · intro he
      simp [he, noEmployeesForSeries]

/-- Witness for C8: a pool resolving to one row, and a pool resolving to none. -/
theorem getEmployeesBySeries_answers_witness :
    (constPool [JsVal.obj [("first_name", JsVal.str "Ann")]]
          ⟨Sql.selectBySeries, [JsVal.str "Lost"]⟩ () =
        (Except.ok ⟨[JsVal.obj [("first_name", JsVal.str "Ann")]], 1⟩, ())) ∧
      ([JsVal.obj [("first_name", JsVal.str "Ann")]] ≠ []) ∧
      (getEmployeesBySeries (constPool [JsVal.obj [("first_name", JsVal.str "Ann")]])
          "Lost" ()).response =
        ⟨200, ResBody.json (JsVal.arr [JsVal.obj [("first_name", JsVal.str "Ann")]])⟩ ∧
      (constPool [] ⟨Sql.selectBySeries, [JsVal.str "Lost"]⟩ () = (Except.ok ⟨[], 0⟩, ())) ∧
      (getEmployeesBySeries (constPool []) "Lost" ()).response =
        ⟨404, ResBody.json
          (JsVal.obj [("message", JsVal.str "No employees found for this series")])⟩ :=
  ⟨rfl, List.cons_ne_nil _ _,
    ((getEmployeesBySeries_answers (constPool [JsVal.obj [("first_name", JsVal.str "Ann")]])
      "Lost" ()).2 ⟨[JsVal.obj [("first_name", JsVal.str "Ann")]], 1⟩ () rfl).1
        (List.cons_ne_nil _ _),
    rfl,
    ((getEmployeesBySeries_answers (constPool []) "Lost" ()).2 ⟨[], 0⟩ () rfl).2 rfl⟩


/-! ### The statements on the table -/

theorem pgQuery_selectById (S : Schema) (db : Db) (id : String) (n : Int)
    (h : S.parseId id = some n) :
    pgQuery S ⟨Sql.selectById, [JsVal.str id]⟩ db =
      (Except.ok ⟨(db.employees.filter (fun e => e.id = n)).map Employee.toRow,
        (db.employees.filter (fun e => e.id = n)).length⟩, db) := by
  simp only [pgQuery, h]

theorem pgQuery_selectById_invalid (S : Schema) (db : Db) (id : String)
    (h : S.parseId id = none) :
    pgQuery S ⟨Sql.selectById, [JsVal.str id]⟩ db = (Except.error DbError.invalidInput, db) := by
  simp only [pgQuery, h]

theorem pgQuery_deleteById (S : Schema) (db : Db) (id : String) (n : Int)
    (h : S.parseId id = some n) :
    pgQuery S ⟨Sql.deleteById, [JsVal.str id]⟩ db =
      (Except.ok ⟨[], (db.employees.filter (fun e => e.id = n)).length⟩,
        ⟨db.employees.filter (fun e => ¬ e.id = n), db.lastId⟩) := by
  simp only [pgQuery, h]

theorem filter_id_ne_nil (l : List Employee) (n : Int) (h : ∃ e ∈ l, e.id = n) :
    l.filter (fun e => e.id = n) ≠ [] := by
  obtain ⟨e, he, hid⟩ := h
  intro hnil
  have : e ∈ l.filter (fun e => e.id = n) := by
    simp [List.mem_filter, he, hid]
  rw [hnil] at this
  exact List.not_mem_nil _ this

theorem filter_id_eq_nil (l : List Employee) (n : Int) (h : ∀ e ∈ l, e.id ≠ n) :
    l.filter (fun e => e.id = n) = [] := by
  rw [List.filter_eq_nil_iff]
  intro e he
  simpa using h e he

theorem firstRow_filter_find (l : List Employee) (n : Int) (e : Employee)
    (h : l.find? (fun x => x.id = n) = some e) :
    firstRow ((l.filter (fun x => x.id = n)).map Employee.toRow) = e.toRow ∧
      l.filter (fun x => x.id = n) ≠ [] := by
  induction l with
  | nil => simp at h
  | cons a t ih =>
    by_cases ha : a.id = n
    · simp [List.find?, ha] at h
      subst h
      simp [List.filter, ha, firstRow]
    · simp [List.find?, ha] at h
      simpa [List.filter, ha] using ih h

theorem getEmployeeById_pg_db (S : Schema) (db : Db) (id : String) :
    (getEmployeeById (pgQuery S) id db).db = db := by
  cases hp : S.parseId id with
  | none => rw [getEmployeeById_error (pgQuery_selectById_invalid S db id hp)]
  | some n =>
    rw [getEmployeeById_ok (pgQuery_selectById S db id n hp)]
    split <;> rfl


/-- C3: for an id that exists in the table, two `DELETE /employees/:id`
requests in a row are answered 204 with an empty body and then 404
`{error: "Employee not found"}`; the first removes every row with that id and
the second leaves the table as the first left it. -/
theorem deleteEmployee_twice (S : Schema) (db : Db) (id : String) (n : Int)
    (hid : S.parseId id = some n) (hex : ∃ e ∈ db.employees, e.id = n) :
    (deleteEmployee (pgQuery S) id db).response = ⟨204, ResBody.empty⟩ ∧
      (deleteEmployee (pgQuery S) id (deleteEmployee (pgQuery S) id db).db).response =
        ⟨404, ResBody.json (JsVal.obj [("error", JsVal.str "Employee not found")])⟩ ∧
      (deleteEmployee (pgQuery S) id (deleteEmployee (pgQuery S) id db).db).db =
        (deleteEmployee (pgQuery S) id db).db ∧
      (deleteEmployee (pgQuery S) id db).db.employees =
        db.employees.filter (fun e => ¬ e.id = n) := by
  have hlen : ¬ (db.employees.filter (fun e => e.id = n)).length = 0 := fun h0 =>
    filter_id_ne_nil db.employees n hex (List.length_eq_zero.1 h0)
  have hfirst : deleteEmployee (pgQuery S) id db =
      ⟨⟨204, ResBody.empty⟩, ⟨db.employees.filter (fun e => ¬ e.id = n), db.lastId⟩,
        [⟨Sql.deleteById, [JsVal.str id]⟩]⟩ := by
    rw [deleteEmployee_ok (pgQuery_deleteById S db id n hid)]
    simp only [hlen, if_false]
  have hgone : ((db.employees.filter (fun e => ¬ e.id = n)).filter
      (fun e => e.id = n)).length = 0 := by
    rw [List.length_eq_zero]
    apply filter_id_eq_nil
    intro e he
    simpa using (List.mem_filter.1 he).2
  have hsame : (db.employees.filter (fun e => ¬ e.id = n)).filter (fun e => ¬ e.id = n) =
      db.employees.filter (fun e => ¬ e.id = n) := by
    rw [List.filter_filter]
    congr 1
    funext e
    simp
  rw [hfirst]
  refine ⟨rfl, ?_, ?_, rfl⟩
  · rw [deleteEmployee_ok (pgQuery_deleteById S _ id n hid)]
    simp only [hgone, if_true]
    rfl
  · rw [deleteEmployee_ok (pgQuery_deleteById S _ id n hid)]
    simp only [hgone, if_true, hsame]

/-- Witness for C3: `DELETE /employees/1` twice on the table with employee 1. -/
theorem deleteEmployee_twice_witness :
    (demoSchema.parseId "1" = some 1 ∧ ∃ e ∈ demoDb.employees, e.id = 1) ∧
      ((deleteEmployee (pgQuery demoSchema) "1" demoDb).response = ⟨204, ResBody.empty⟩ ∧
        (deleteEmployee (pgQuery demoSchema) "1"
            (deleteEmployee (pgQuery demoSchema) "1" demoDb).db).response =
          ⟨404, ResBody.json (JsVal.obj [("error", JsVal.str "Employee not found")])⟩ ∧
        (deleteEmployee (pgQuery demoSchema) "1"
            (deleteEmployee (pgQuery demoSchema) "1" demoDb).db).db =
          (deleteEmployee (pgQuery demoSchema) "1" demoDb).db ∧
        (deleteEmployee (pgQuery demoSchema) "1" demoDb).db.employees =
          demoDb.employees.filter (fun e => ¬ e.id = 1)) :=
  ⟨⟨rfl, _, List.Mem.head _, rfl⟩,
    deleteEmployee_twice demoSchema demoDb "1" 1 rfl ⟨_, List.Mem.head _, rfl⟩⟩


/-- C5: `GET /employees/:id` with its query resolving: an empty result set is
answered 404 `{error: "Employee not found"}` and a non-empty one 200 with its
first row alone; on the table, the 404 is given when no row has the requested
id, and otherwise the 200 carries the first row with that id as one object. -/
theorem getEmployeeById_answers {σ : Type} (pool : Pool σ) (d : σ) (S : Schema) (db : Db)
    (id : String) :
    (∀ (r : QueryResult) (d1 : σ),
        pool ⟨Sql.selectById, [JsVal.str id]⟩ d = (Except.ok r, d1) →
        (r.rows = [] → (getEmployeeById pool id d).response =
          ⟨404, ResBody.json (JsVal.obj [("error", JsVal.str "Employee not found")])⟩) ∧
        (∀ row rest, r.rows = row :: rest →
          (getEmployeeById pool id d).response = ⟨200, ResBody.json row⟩)) ∧
      (∀ n : Int, S.parseId id = some n →
        ((∀ e ∈ db.employees, e.id ≠ n) → (getEmployeeById (pgQuery S) id db).response =
          ⟨404, ResBody.json (JsVal.obj [("error", JsVal.str "Employee not found")])⟩) ∧
        (∀ e : Employee, db.employees.find? (fun x => x.id = n) = some e →
          (getEmployeeById (pgQuery S) id db).response =
            ⟨200, ResBody.json (JsVal.obj [("id", JsVal.num e.id),
              ("first_name", e.first_name), ("last_name", e.last_name),
              ("position", e.position), ("department_id", e.department_id),
              ("car_id", e.car_id)])⟩)) := by
  refine ⟨fun r d1 h => ⟨fun he => ?_, fun row rest hr => ?_⟩,
    fun n hn => ⟨fun hno => ?_, fun e he => ?_⟩⟩
  · simp [getEmployeeById_ok h, he, employeeNotFound]
  · simp [getEmployeeById_ok h, hr, firstRow]
  · simp [getEmployeeById_ok (pgQuery_selectById S db id n hn),
      filter_id_eq_nil db.employees n hno, employeeNotFound]
  · obtain ⟨hrow, hne⟩ := firstRow_filter_find db.employees n e he
    have hlen : ¬ ((db.employees.filter (fun x => x.id = n)).map Employee.toRow).length = 0 := by
      intro h0
      rw [List.length_map] at h0
      exact hne (List.length_eq_zero.1 h0)
    rw [getEmployeeById_ok (pgQuery_selectById S db id n hn)]
    simp only [hlen, if_false, hrow]
    rfl

/-- Witness for C5: id 9999 on a table without it is answered 404, id 1 is answered 200 with the row of employee 1, and a pool resolving to one row is answered with that row. -/
theorem getEmployeeById_answers_witness :
    ((demoSchema.parseId "9999" = some 9999 ∧ ∀ e ∈ demoDb.employees, e.id ≠ 9999) ∧
      (getEmployeeById (pgQuery demoSchema) "9999" demoDb).response =
        ⟨404, ResBody.json (JsVal.obj [("error", JsVal.str "Employee not found")])⟩) ∧
      ((demoSchema.parseId "1" = some 1 ∧
          demoDb.employees.find? (fun x => x.id = 1) =
            some ⟨1, JsVal.str "Ann", JsVal.str "Lee", JsVal.str "Engineer", JsVal.num 7,
              JsVal.num 3⟩) ∧
        (getEmployeeById (pgQuery demoSchema) "1" demoDb).response =
          ⟨200, ResBody.json (JsVal.obj [("id", JsVal.num 1), ("first_name", JsVal.str "Ann"),
            ("last_name", JsVal.str "Lee"), ("position", JsVal.str "Engineer"),
            ("department_id", JsVal.num 7), ("car_id", JsVal.num 3)])⟩) ∧
      (constPool [JsVal.obj [("id", JsVal.num 5)]] ⟨Sql.selectById, [JsVal.str "5"]⟩ () =
          (Except.ok ⟨[JsVal.obj [("id", JsVal.num 5)]], 1⟩, ()) ∧
        (getEmployeeById (constPool [JsVal.obj [("id", JsVal.num 5)]]) "5" ()).response =
          ⟨200, ResBody.json (JsVal.obj [("id", JsVal.num 5)])⟩) :=
  ⟨⟨⟨rfl, by simp [demoDb]⟩,
      ((getEmployeeById_answers (constPool []) () demoSchema demoDb "9999").2 9999 rfl).1
        (by simp [demoDb])⟩,
    ⟨⟨rfl, rfl⟩,
      ((getEmployeeById_answers (constPool []) () demoSchema demoDb "1").2 1 rfl).2 _ rfl⟩,
    ⟨rfl,
      ((getEmployeeById_answers (constPool [JsVal.obj [("id", JsVal.num 5)]]) () demoSchema demoDb
        "5").1 _ () rfl).2 _ _ rfl⟩⟩

/-- C7: get-by-id is idempotent: the handler leaves the table as it found it,
and the same `GET /employees/:id` repeated any number of times with nothing in
between is answered each time with the status and body of the first. -/
theorem getEmployeeById_idempotent (S : Schema) (db : Db) (id : String) (k : Nat) :
    (getEmployeeById (pgQuery S) id db).db = db ∧
      (getRepeatedly (pgQuery S) id k db).response =
        (getEmployeeById (pgQuery S) id db).response ∧
      (getRepeatedly (pgQuery S) id k db).db = db := by
  refine ⟨getEmployeeById_pg_db S db id, ?_, ?_⟩
  · induction k with
    | zero => rfl
    | succ k ih =>
      show (getRepeatedly (pgQuery S) id k (getEmployeeById (pgQuery S) id db).db).response = _
      rw [getEmployeeById_pg_db]
      exact ih
  · induction k with
    | zero => exact getEmployeeById_pg_db S db id
    | succ k ih =>
      show (getRepeatedly (pgQuery S) id k (getEmployeeById (pgQuery S) id db).db).db = _
      rw [getEmployeeById_pg_db]
      exact ih


end CompanyApi
